import Mathlib

/-!
Verification of the riptide column-name compliance engine.

Names are modelled as lists of characters (`Str`), mirroring Python strings.
Character classification (`isalpha`, `isupper`, `islower`, `isalnum`,
`lower`) is modelled over the ASCII range, which covers the whole controlled
vocabulary and every rule the checks apply; `fuzz.ratio` from the `thefuzz`
library is modelled as the rounded Indel similarity (`round(200*LCS/(|a|+|b|))`
with round-half-to-even), which is what the rapidfuzz backend computes.
-/

abbrev Str := List Char

def str (s : String) : Str := s.data

def toLowerPy (c : Char) : Char :=
  if 'A' ≤ c ∧ c ≤ 'Z' then Char.ofNat (c.toNat + 32) else c

def isUpperPy (c : Char) : Bool := 'A' ≤ c && c ≤ 'Z'

def isLowerCharPy (c : Char) : Bool := 'a' ≤ c && c ≤ 'z'

def isAlphaPy (c : Char) : Bool := isUpperPy c || isLowerCharPy c

def isDigitPy (c : Char) : Bool := '0' ≤ c && c ≤ '9'

def isAlnumPy (c : Char) : Bool := isAlphaPy c || isDigitPy c

/-- Python `s.isalnum()`: non-empty and every character alphanumeric. -/
def pyIsAlnumStr (l : Str) : Bool := !l.isEmpty && l.all isAlnumPy

/-- Python `s.islower()`: at least one cased character and no upper-case one. -/
def pyIsLowerStr (l : Str) : Bool :=
  l.any isAlphaPy && l.all (fun c => !isUpperPy c)

def lowerStr (l : Str) : Str := l.map toLowerPy

/-- Python `s.startswith(p)`. -/
def leadsWith : Str → Str → Bool
  | [], _ => true
  | _ :: _, [] => false
  | a :: as_, b :: bs => a == b && leadsWith as_ bs

/-- Python `sub in s` (substring containment). -/
def occursIn (sub : Str) : Str → Bool
  | [] => sub.isEmpty
  | c :: rest => leadsWith sub (c :: rest) || occursIn sub rest

/-- Python `s.split("_")` (keeps empty pieces, `"" → [""]`). -/
def splitU : Str → List Str
  | [] => [[]]
  | c :: rest =>
      let r := splitU rest
      if c = '_' then [] :: r
      else
        match r with
        | t :: ts => (c :: t) :: ts
        | [] => [[c]]

def joinU : List Str → Str
  | [] => []
  | [t] => t
  | t :: ts => t ++ '_' :: joinU ts

/-- `reverse_tokens`: the underscore-delimited tokens joined in reverse order. -/
def reverseTokens (f : Str) : Str := joinU (splitU f).reverse

/-- Fuel-driven scan for `removeAll`; `fuel = s.length` always suffices for a
non-empty pattern, because every step consumes at least one character. -/
def removeAllFuel (sub : Str) : Nat → Str → Str
  | 0, s => s
  | _ + 1, [] => []
  | fuel + 1, c :: rest =>
      if leadsWith sub (c :: rest) then
        removeAllFuel sub fuel (rest.drop (sub.length - 1))
      else
        c :: removeAllFuel sub fuel rest

/-- Python `s.replace(sub, "")`: leftmost, non-overlapping removal. -/
def removeAll (sub : Str) (s : Str) : Str :=
  if sub.isEmpty then s else removeAllFuel sub s.length s

/-- Longest-common-subsequence row update (dynamic programming). -/
def lcsRow (a : Char) : Str → List Nat → Nat → Nat → List Nat
  | [], _, _, _ => []
  | _ :: _, [], _, _ => []
  | b :: bs, p :: ps, diag, left =>
      let v := if a = b then diag + 1 else max left p
      v :: lcsRow a bs ps p v

/-- Length of the longest common subsequence of two strings. -/
def lcsLen (as_ bs : Str) : Nat :=
  (as_.foldl (fun row a => lcsRow a bs row 0 0) (List.replicate bs.length 0)).getLastD 0

/-- Round-half-to-even of `num / den` (Python `round`). -/
def roundHalfEven (num den : Nat) : Nat :=
  let q := num / den
  let r := num % den
  if 2 * r < den then q
  else if den < 2 * r then q + 1
  else if q % 2 = 0 then q else q + 1

/-- `thefuzz`'s `fuzz.ratio`: rounded Indel similarity on a 0-100 scale. -/
def fuzzRatio (a b : Str) : Nat :=
  if a.length + b.length = 0 then 100
  else roundHalfEven (200 * lcsLen a b) (a.length + b.length)

inductive State where
  | PASS
  | WARNING
  | FAIL
deriving DecidableEq, Repr

structure Status where
  state : State
  message : Option Str := none
deriving DecidableEq, Repr

/-- The controlled filter-name vocabulary (`valid_filters` in filter_check.py). -/
def valid_filters : List Str :=
  [str "FUV_GALEX", str "NUV_GALEX", str "u_SDSS", str "g_SDSS", str "r_SDSS",
   str "i_SDSS", str "z_SDSS", str "u_VST", str "g_VST", str "r_VST",
   str "i_VST", str "Z_VISTA", str "Y_VISTA", str "J_VISTA", str "H_VISTA",
   str "K_VISTA", str "W1_WISE", str "I1_Spitzer", str "I2_Spitzer",
   str "W2_WISE", str "I3_Spitzer", str "I4_Spitzer", str "W3_WISE",
   str "W4_WISE", str "M24_Spitzer", str "M70_Spitzer", str "P70_Herschel",
   str "P100_Herschel", str "P160_Herschel", str "S250_Herschel",
   str "S350_Herschel", str "S450_JCMT", str "S500_Herschel", str "S850_JCMT",
   str "Band_ionising_photons", str "Band9_ALMA", str "Band8_ALMA",
   str "Band7_ALMA", str "Band6_ALMA", str "Band5_ALMA", str "Band4_ALMA",
   str "Band3_ALMA", str "BandX_VLA", str "BandC_VLA", str "BandS_VLA",
   str "BandL_VLA", str "Band_610MHz", str "Band_325MHz", str "Band_150MHz"]

def EXCEPTIONS : List Str := [str "uberID"]

def NOT_ALLOWED : List Str :=
  [str "fred", str "bob", str "thing", str "something", str "whatever",
   str "words", str "blahblahblah", str "abc123", str "xyz"]

/-- The protected-word table, in insertion order (canonical token, synonyms). -/
def PROTECTED_WORD_LIST : List (Str × List Str) :=
  [(str "ra", [str "ascension", str "r.a.", str "r a", str "ra_deg",
     str "ra (deg)", str "ra degrees", str "right_ascension", str "ra_degrees"]),
   (str "dec", [str "declination", str "dec_deg", str "dec (deg)",
     str "dec degrees", str "decl."]),
   (str "vel", [str "velocity", str "vel_kms", str "v_los", str "vlos",
     str "v_rad", str "v(km/s)", str "radial velocity"]),
   (str "mag", [str "magnitude", str "app_mag", str "apparent magnitude",
     str "m_app"]),
   (str "mag_abs", [str "absolute magnitude", str "m_abs", str "abs_mag",
     str "Mmag", str "M_abs"]),
   (str "err", [str "error", str "uncertainty", str "stddev", str "std",
     str "measurement error"]),
   (str "flux_density", [str "flux density", str "f_nu", str "fnu",
     str "f_lambda", str "flam", str "fluxdens", str "Snu"]),
   (str "flux", [str "total flux", str "measured flux", str "int_flux",
     str "integrated flux", str "f"]),
   (str "luminosity", [str "lum", str "luminosity (erg/s)", str "Lbol",
     str "L_sun", str "bolometric luminosity"]),
   (str "mass", [str "stellar mass", str "M", str "Msol", str "mass_msun",
     str "mstar", str "Mstar", str "msun"]),
   (str "sfr", [str "star formation rate", str "SFR_msun_yr",
     str "sfr(msun/yr)"]),
   (str "metallicity", [str "gas metallicity", str "stellar metallicity",
     str "metal abundance"]),
   (str "redshift", [str "zobs", str "z_spec", str "z_phot",
     str "spectroscopic redshift", str "photometric redshift", str "zcos",
     str "z_obs"]),
   (str "snr", [str "signal to noise", str "S/N", str "sn_ratio",
     str "signal/noise", str "sn"]),
   (str "ew", [str "equivalent width", str "eq width", str "EW_line",
     str "eqw"]),
   (str "radius", [str "rad", str "r_phys", str "r_ang", str "radii",
     str "object radius", str "r (arcsec)", str "r (kpc)"]),
   (str "sersic_index", [str "n_sersic", str "sersic n", str "sersicn",
     str "Sérsic index", str "SersicN"]),
   (str "axrat", [str "axis ratio", str "axial ratio", str "b/a",
     str "ellipticity", str "axisratio"]),
   (str "ang", [str "angle", str "angular measurement", str "ang (deg)",
     str "angular size", str "theta", str "phi"]),
   (str "pos_ang", [str "position angle", str "pa", str "posang",
     str "P.A.", str "PA(deg)", str "position angle (deg)"]),
   (str "line_width", [str "linewidth", str "line width", str "FWHM",
     str "sigma_line", str "velocity width", str "dispersion"]),
   (str "sep", [str "separation", str "sep_dist", str "distance between",
     str "angular separation", str "physical separation"])]

def MAX_COLUMN_LENGTH : Nat := 50

def WARN_COLUMN_LENGTH : Nat := 25

/-- `check_length`: `PASS` below the warn bound, `FAIL` above the max, else `WARNING`. -/
def check_length (name : Str) : Status :=
  if name.length < WARN_COLUMN_LENGTH then ⟨State.PASS, none⟩
  else if MAX_COLUMN_LENGTH < name.length then ⟨State.FAIL, none⟩
  else ⟨State.WARNING, none⟩

/-- `check_decimals`: `FAIL` iff the raw name contains a literal dot. -/
def check_decimals (name : Str) : Status :=
  if !occursIn (str ".") name then ⟨State.PASS, none⟩ else ⟨State.FAIL, none⟩

/-- Inner fuzzy loop of `check_allowed`: one banned word against the tokens. -/
def fuzzyInner (na : Str) : List Str → Option Status
  | [] => none
  | w :: ws =>
      let ratio := fuzzRatio na (lowerStr w)
      if 80 < ratio then some ⟨State.FAIL, some na⟩
      else if 50 < ratio then some ⟨State.WARNING, some na⟩
      else fuzzyInner na ws

/-- Outer fuzzy loop of `check_allowed` over the banned words. -/
def fuzzyOuter (tokens : List Str) : List Str → Option Status
  | [] => none
  | na :: nas =>
      match fuzzyInner na tokens with
      | some st => some st
      | none => fuzzyOuter tokens nas

/-- `check_allowed`: literal substring pass over the banned words, then the
fuzzy pass token-by-token. -/
def check_allowed (name : Str) : Status :=
  match NOT_ALLOWED.find? (fun na => occursIn na name) with
  | some na => ⟨State.FAIL, some na⟩
  | none => (fuzzyOuter (splitU name) NOT_ALLOWED).getD ⟨State.PASS, none⟩

/-- Inner loop of `check_protected`: the synonyms of one protected token. -/
def protWords (name : Str) (pw : Str) : List Str → Option Status
  | [] => none
  | w :: ws =>
      if w = name then some ⟨State.FAIL, some pw⟩
      else if (splitU name).any (fun t => lowerStr w = lowerStr t) then
        some ⟨State.WARNING, some pw⟩
      else protWords name pw ws

/-- Outer loop of `check_protected` over the protected-word table. -/
def protScan (name : Str) : List (Str × List Str) → Status
  | [] => ⟨State.PASS, none⟩
  | (pw, ws) :: rest =>
      match protWords name pw ws with
      | some st => st
      | none => protScan name rest

/-- `check_protected`: protected-word synonyms, exact name match → `FAIL`,
token-level case-insensitive match → `WARNING`. -/
def check_protected (name : Str) : Status :=
  protScan name PROTECTED_WORD_LIST

/-- Loop of `check_exceptions` over the exception tokens, on the
underscore-stripped name. -/
def excScan (real : Str) : List Str → Status
  | [] => ⟨State.PASS, none⟩
  | e :: es =>
      if occursIn (lowerStr e) (lowerStr real) then
        if occursIn e real then ⟨State.PASS, none⟩ else ⟨State.FAIL, some e⟩
      else excScan real es

/-- `check_exceptions`: exception tokens must appear with their mandated casing
in the underscore-stripped name. -/
def check_exceptions (name : Str) : Status :=
  excScan (name.filter (fun c => !(c == '_'))) EXCEPTIONS

/-- `check_alphanumeric`: the name with underscores removed must be `isalnum`. -/
def check_alphanumeric (name : Str) : Status :=
  if pyIsAlnumStr (name.filter (fun c => !(c == '_'))) then ⟨State.PASS, none⟩
  else ⟨State.FAIL, none⟩

/-- Verdict of `check_alphabetical_start` on the first character. -/
def startStatus (c : Char) : Status :=
  if isAlphaPy c then ⟨State.PASS, none⟩ else ⟨State.FAIL, none⟩

/-- `check_alphabetical_start`: `name[0].isalpha()`. Indexing an empty name
raises in Python, modelled as `none`. -/
def check_alphabetical_start : Str → Option Status
  | [] => none
  | c :: _ => some (startStatus c)

/-- The remainder of `check_snake_case`: the name after removing every
occurrence of every controlled filter name and every exception token. -/
def snakeRemainder (name : Str) : Str :=
  EXCEPTIONS.foldl (fun s e => removeAll e s)
    (valid_filters.foldl (fun s f => removeAll f s) name)

/-- Python `s.endswith("_")`. -/
def endsWithUnderscore (name : Str) : Bool :=
  match name.getLast? with
  | some c => c == '_'
  | none => false

/-- `check_snake_case`: underscore-shape guards, then the filter/exception
remainder must be entirely lower-case and alphanumeric-with-underscore.
The `not check_alphanumeric(...)` test in the source reads the truthiness of
a `Status`; per the spec a `Status` is truthy exactly when its state is
`PASS` (status.py is not under src/). -/
def check_snake_case (name : Str) : Status :=
  if leadsWith (str "_") name then ⟨State.FAIL, some (str "Starts with underscore.")⟩
  else if endsWithUnderscore name then ⟨State.FAIL, some (str "Ends with underscore.")⟩
  else if occursIn (str "__") name then ⟨State.FAIL, some (str "Multiple underscores in a row.")⟩
  else
    let actual := snakeRemainder name
    if actual = [] then ⟨State.PASS, none⟩
    else if pyIsLowerStr actual then
      if !((check_alphanumeric actual).state == State.PASS) then ⟨State.FAIL, none⟩
      else ⟨State.PASS, none⟩
    else ⟨State.FAIL, none⟩

def normalizePy (s : Str) : Str :=
  (lowerStr s).filter (fun c => !(c == '_' || c == '-'))

def fillerPrefixes : List Str := [str "filter", str "filt", str "band"]

/-- Filler-token stripping of `validate_filter_name`: a leading
"filter"/"filt"/"band" (case-insensitively) is removed when the next
original character is upper-case. -/
def stripFiller : List Str → Str → Str → Str
  | [], orig, _ => orig
  | p :: ps, orig, lowOrig =>
      if leadsWith p lowOrig then
        match orig.drop p.length with
        | [] => stripFiller ps orig lowOrig
        | c :: rest => if isUpperPy c then c :: rest else stripFiller ps orig lowOrig
      else stripFiller ps orig lowOrig

/-- Main loop of `validate_filter_name` over the vocabulary: normalized
equality, else all-tokens-present with the 1.5 length-ratio skip and the
0.65 character-overlap test (exact rational comparisons). -/
def filterLoop (inputLower normInput : Str) : List Str → Option Str
  | [] => none
  | f :: fs =>
      let normF := normalizePy f
      if normInput = normF then some f
      else
        let parts := splitU (lowerStr f)
        if parts.all (fun p => occursIn p inputLower) && decide (1 < parts.length) then
          if 3 * normF.length < 2 * normInput.length then
            filterLoop inputLower normInput fs
          else
            let overlap := (normF.filter (fun c => normInput.contains c)).length
            if 13 * max normInput.length normF.length < 20 * overlap then some f
            else filterLoop inputLower normInput fs
        else filterLoop inputLower normInput fs

/-- `validate_filter_name`: `(is_valid, recommended_filter)`. -/
def validate_filter_name (input : Str) : Bool × Option Str :=
  if input ∈ valid_filters then (true, none)
  else
    let stripped := stripFiller fillerPrefixes input (lowerStr input)
    match filterLoop (lowerStr stripped) (normalizePy stripped) valid_filters with
    | some f => (false, some f)
    | none => (true, none)

/-- Modelled from the spec: the `Status`-returning `check_filter` imported by
column_name_validator.py is not under src/; per the spec's Filter Matcher
contract it reports the verdict of the filter check as `PASS`, or `FAIL`
carrying the suggested canonical filter name as message. Its decision is
the `validate_filter_name` algorithm of src/filter_check.py. -/
def check_filter (name : Str) : Status :=
  match validate_filter_name name with
  | (true, _) => ⟨State.PASS, none⟩
  | (false, r) => ⟨State.FAIL, r⟩

/-- `ColumnNameReport`: one `Status` per check dimension plus the derived
overall `valid` flag computed at construction. The source compares each
`Status` to `State.PASS`; per the spec (status.py is not under src/) that
comparison holds exactly when the status's state is `PASS`. -/
structure ColumnNameReport where
  name : Str
  alpha_numeric : Status
  starts_with_letter : Status
  snake_case : Status
  length : Status
  no_decimals : Status
  filter_name : Status
  allowed_words : Status
  no_exception_violation : Status
  not_protected : Status
  valid : Bool
deriving DecidableEq, Repr

/-- The report `validate_column_name` builds for a non-empty name `c :: rest`. -/
def reportFor (c : Char) (rest : Str) : ColumnNameReport :=
  let name := c :: rest
  let alphanumeric := check_alphanumeric name
  let letter_start := startStatus c
  let valid_length := check_length name
  let snake_case := check_snake_case name
  let no_decimals := check_decimals name
  let valid_filter := check_filter name
  let allowed := check_allowed name
  let violates_exception := check_exceptions name
  let not_protected_word := check_protected name
  { name := name
    alpha_numeric := alphanumeric
    starts_with_letter := letter_start
    snake_case := snake_case
    length := valid_length
    no_decimals := no_decimals
    filter_name := valid_filter
    allowed_words := allowed
    no_exception_violation := violates_exception
    not_protected := not_protected_word
    valid :=
      decide (alphanumeric.state = State.PASS) &&
      decide (letter_start.state = State.PASS) &&
      decide (snake_case.state = State.PASS) &&
      decide (valid_length.state = State.PASS) &&
      decide (no_decimals.state = State.PASS) &&
      decide (valid_filter.state = State.PASS) &&
      decide (allowed.state = State.PASS) &&
      decide (violates_exception.state = State.PASS) &&
      decide (not_protected_word.state = State.PASS) }

/-- `validate_column_name`: runs every check and aggregates the report.
On an empty name the `name[0]` indexing of `check_alphabetical_start`
raises in Python, modelled as `none`. -/
def validate_column_name : Str → Option ColumnNameReport
  | [] => none
  | c :: rest => some (reportFor c rest)

/-- `find?` distributes over append, preferring the left list. -/
theorem findQ_append {α : Type} (p : α → Bool) :
    ∀ (l₁ l₂ : List α),
      (l₁ ++ l₂).find? p =
        match l₁.find? p with
        | some x => some x
        | none => l₂.find? p := by
  intro l₁ l₂
  induction l₁ with
  | nil => rfl
  | cons a l ih =>
      by_cases h : p a = true
      · simp [List.find?, h]
      · simp only [List.cons_append, List.find?, Bool.not_eq_true] at *
        rw [h]
        simpa using ih

/-- `find?` on a mapped list. -/
theorem findQ_map {α β : Type} (f : α → β) (p : β → Bool) :
    ∀ l : List α, (l.map f).find? p = (l.find? (fun x => p (f x))).map f := by
  intro l
  induction l with
  | nil => rfl
  | cons a l ih =>
      by_cases h : p (f a) = true
      · simp [List.find?, h]
      · simp only [List.map_cons, List.find?, Bool.not_eq_true] at *
        rw [h]
        simpa using ih

/-- Filtering twice with the same predicate is the same as filtering once. -/
theorem filter_idem (p : Char → Bool) (l : Str) :
    (l.filter p).filter p = l.filter p := by
  induction l with
  | nil => rfl
  | cons c cs ih =>
      by_cases h : p c = true
      · simp [List.filter, h, ih]
      · simp only [List.filter, Bool.not_eq_true] at *
        rw [h]
        exact ih

/-- A suggestion produced by `filterLoop` is an element of the scanned list. -/
theorem filterLoop_mem (il ni : Str) :
    ∀ (l : List Str) (f : Str), filterLoop il ni l = some f → f ∈ l := by
  intro l
  induction l with
  | nil => intro f h; simp [filterLoop] at h
  | cons g gs ih =>
      intro f h
      simp only [filterLoop] at h
      split at h
      · cases h; exact List.mem_cons_self g gs
      · split at h
        · split at h
          · exact List.mem_cons_of_mem g (ih f h)
          · split at h
            · cases h; exact List.mem_cons_self g gs
            · exact List.mem_cons_of_mem g (ih f h)
        · exact List.mem_cons_of_mem g (ih f h)

/-- The token/banned-word pairs of the fuzzy pass, in evaluation order
(banned word outer, underscore-delimited token inner). -/
def bannedPairs (name : Str) : List (Str × Str) :=
  NOT_ALLOWED.flatMap (fun na => (splitU name).map (fun w => (na, w)))

/-- The banned-word check as the claim words it: a literal-substring pass over
all banned words, then a fuzzy pass over the pairs, the first pair with ratio
above 50 deciding `FAIL` (above 80) or `WARNING`. -/
def specBannedCheck (name : Str) : Status :=
  match NOT_ALLOWED.find? (fun na => occursIn na name) with
  | some na => ⟨State.FAIL, some na⟩
  | none =>
      match (bannedPairs name).find? (fun p => 50 < fuzzRatio p.1 (lowerStr p.2)) with
      | some p =>
          if 80 < fuzzRatio p.1 (lowerStr p.2) then ⟨State.FAIL, some p.1⟩
          else ⟨State.WARNING, some p.1⟩
      | none => ⟨State.PASS, none⟩

/-- The inner fuzzy loop finds the first decisive token for one banned word. -/
theorem fuzzyInner_eq (na : Str) (ws : List Str) :
    fuzzyInner na ws =
      match ws.find? (fun w => 50 < fuzzRatio na (lowerStr w)) with
      | some w =>
          some (if 80 < fuzzRatio na (lowerStr w) then ⟨State.FAIL, some na⟩
                else ⟨State.WARNING, some na⟩)
      | none => none := by
  induction ws with
  | nil => rfl
  | cons w ws ih =>
      by_cases h80 : 80 < fuzzRatio na (lowerStr w)
      · have h50 : 50 < fuzzRatio na (lowerStr w) := by omega
        simp [fuzzyInner, List.find?, h80, h50]
      · by_cases h50 : 50 < fuzzRatio na (lowerStr w)
        · simp [fuzzyInner, List.find?, h80, h50]
        · simp [fuzzyInner, List.find?, h80, h50, ih]

/-- The nested fuzzy loops scan the banned-word/token pairs in order. -/
theorem fuzzyOuter_eq (tokens : List Str) :
    ∀ nas : List Str,
      fuzzyOuter tokens nas =
        match (nas.flatMap (fun na => tokens.map (fun w => (na, w)))).find?
            (fun p => 50 < fuzzRatio p.1 (lowerStr p.2)) with
        | some p =>
            some (if 80 < fuzzRatio p.1 (lowerStr p.2) then ⟨State.FAIL, some p.1⟩
                  else ⟨State.WARNING, some p.1⟩)
        | none => none := by
  intro nas
  induction nas with
  | nil => rfl
  | cons na nas ih =>
      simp only [List.flatMap_cons]
      rw [findQ_append]
      rw [findQ_map (fun w => (na, w)) (fun p => decide (50 < fuzzRatio p.1 (lowerStr p.2)))]
      simp only [fuzzyOuter]
      rw [fuzzyInner_eq na tokens]
      cases hf : tokens.find? (fun w => 50 < fuzzRatio na (lowerStr w)) with
      | some w => simp [hf]
      | none => simp [hf, ih]

/-- C7: for every name the banned-word check runs a literal-substring pass
over all banned words first (`FAIL` with the banned word as message), and
only if it finds nothing does the fuzzy pass compare each underscore token to
each banned word, the first pair with ratio above 80 yielding `FAIL` and the
first decisive pair with ratio above 50 but at most 80 yielding `WARNING`,
both with the banned word as message. -/
theorem c7_banned_word_two_pass (name : Str) :
    check_allowed name = specBannedCheck name := by
  unfold check_allowed specBannedCheck
  cases h : NOT_ALLOWED.find? (fun na => occursIn na name) with
  | some na => rfl
  | none =>
      rw [fuzzyOuter_eq (splitU name) NOT_ALLOWED]
      have hb : NOT_ALLOWED.flatMap (fun na => (splitU name).map (fun w => (na, w))) =
          bannedPairs name := rfl
      rw [hb]
      cases hp : (bannedPairs name).find? (fun p => 50 < fuzzRatio p.1 (lowerStr p.2)) with
      | some p => simp [hp]
      | none => simp [hp]

/-- C10: the exception-casing check depends on the name only through its
underscore-stripped form, and in particular `uber_ID` passes the check for
the exception token `uberID`. -/
theorem c10_exceptions_underscore_insensitive :
    (∀ name : Str,
      check_exceptions name = check_exceptions (name.filter (fun c => !(c == '_')))) ∧
    check_exceptions (str "uber_ID") = ⟨State.PASS, none⟩ := by
  constructor
  · intro name
    unfold check_exceptions
    rw [filter_idem]
  · decide

/-- C5 counterexample: on the name `ra_deg` the protected-word check does not
return `WARNING` (the name is an exact synonym of the `ra` group, which the
check reports as `FAIL`). -/
theorem c5_counterexample :
    (check_protected (str "ra_deg")).state ≠ State.WARNING := by decide

/-- C5 amended: on the name `ra_deg` the protected-word check returns `FAIL`
(exact full-name synonym match) with message `ra`. -/
theorem c5_protected_ra_deg_fails :
    check_protected (str "ra_deg") = ⟨State.FAIL, some (str "ra")⟩ := by decide

/-- C2 counterexample: `FUV_GALEX` appears verbatim in `err_FUV_GALEX`, yet
the filter check flags the name as a violation with suggestion `FUV_GALEX`
instead of reporting no violation. -/
theorem c2_counterexample :
    occursIn (str "FUV_GALEX") (str "err_FUV_GALEX") = true ∧
    validate_filter_name (str "err_FUV_GALEX") = (false, some (str "FUV_GALEX")) := by
  exact ⟨by decide, by decide⟩

/-- C2 amended: a name that is exactly a canonical filter name passes the
filter check; verbatim containment as a proper substring does not in general
yield a pass. -/
theorem c2_exact_filter_passes (f : Str) (h : f ∈ valid_filters) :
    validate_filter_name f = (true, none) := by
  unfold validate_filter_name
  rw [if_pos h]

/-- C2 amended, witness: the canonical filter name `FUV_GALEX` itself passes. -/
theorem c2_exact_filter_passes_witness :
    validate_filter_name (str "FUV_GALEX") = (true, none) :=
  c2_exact_filter_passes (str "FUV_GALEX") (by decide)

/-- C9: the code skips a filter when the normalized name is strictly more than
1.5 times as long, so `mag_err_VISTA_Z` (ratio 2.0) is reported valid, but
`FUV_GALEX_test` has ratio exactly 1.5 (12/8), is not skipped, and is flagged
with suggestion `FUV_GALEX` — contradicting the module's own example comment
that marks it valid. -/
theorem c9_length_ratio_boundary :
    validate_filter_name (str "FUV_GALEX_test") = (false, some (str "FUV_GALEX")) ∧
    validate_filter_name (str "mag_err_VISTA_Z") = (true, none) := by
  exact ⟨by decide, by decide⟩

/-- C3 counterexample: `FUV_GALAX` is not decided by exact containment,
normalized (case/format) equality, or reversed-token containment against any
canonical filter, and its similarity ratio to `FUV_GALEX` is 88, above the
claimed fail threshold of 80 — yet the filter check reports no violation:
no fuzzy-resemblance pass exists in the code. -/
theorem c3_counterexample :
    validate_filter_name (str "FUV_GALAX") = (true, none) ∧
    80 < fuzzRatio (normalizePy (str "FUV_GALAX")) (normalizePy (str "FUV_GALEX")) ∧
    valid_filters.all (fun f => !occursIn f (str "FUV_GALAX")) = true ∧
    valid_filters.all (fun f => !(normalizePy (str "FUV_GALAX") == normalizePy f)) = true ∧
    valid_filters.all
      (fun f => !occursIn (normalizePy (reverseTokens f)) (normalizePy (str "FUV_GALAX"))) = true := by
  refine ⟨by decide, by decide, by decide, by decide, by decide⟩

/-- C3 amended: the filter check computes no similarity ratio and has no
warning outcome — every name either passes with no suggestion or fails with
some canonical filter name as the suggestion. -/
theorem c3_no_fuzzy_pass (s : Str) :
    validate_filter_name s = (true, none) ∨
    ∃ f, f ∈ valid_filters ∧ validate_filter_name s = (false, some f) := by
  unfold validate_filter_name
  by_cases h : s ∈ valid_filters
  · rw [if_pos h]
    exact Or.inl rfl
  · rw [if_neg h]
    cases hf : filterLoop (lowerStr (stripFiller fillerPrefixes s (lowerStr s)))
        (normalizePy (stripFiller fillerPrefixes s (lowerStr s))) valid_filters with
    | none => exact Or.inl (by simp [hf])
    | some f => exact Or.inr ⟨f, filterLoop_mem _ _ _ _ hf, by simp [hf]⟩

/-- C6: for every canonical filter name with at least two underscore tokens,
the filter check flags its reversed-token form as a violation with the
canonical name as the suggested correction. -/
theorem c6_reversed_tokens_fail (f : Str) (h1 : f ∈ valid_filters)
    (_h2 : 2 ≤ (splitU f).length) :
    validate_filter_name (reverseTokens f) = (false, some f) := by
  have H : valid_filters.all
      (fun g => validate_filter_name (reverseTokens g) == (false, some g)) = true := by
    decide
  exact eq_of_beq (List.all_eq_true.mp H f h1)

/-- C6 witness: the reversed form of `u_SDSS` (i.e. `SDSS_u`) is flagged with
suggestion `u_SDSS`. -/
theorem c6_reversed_tokens_fail_witness :
    validate_filter_name (reverseTokens (str "u_SDSS")) = (false, some (str "u_SDSS")) :=
  c6_reversed_tokens_fail (str "u_SDSS") (by decide) (by decide)

/-- C1: the aggregator's report has `valid` equal to the conjunction, over all
nine check dimensions, of that dimension's status having state `PASS`. -/
theorem c1_valid_iff_all_pass (c : Char) (rest : Str) :
    validate_column_name (c :: rest) = some (reportFor c rest) ∧
    ((reportFor c rest).valid = true ↔
      ((reportFor c rest).alpha_numeric.state = State.PASS ∧
       (reportFor c rest).starts_with_letter.state = State.PASS ∧
       (reportFor c rest).snake_case.state = State.PASS ∧
       (reportFor c rest).length.state = State.PASS ∧
       (reportFor c rest).no_decimals.state = State.PASS ∧
       (reportFor c rest).filter_name.state = State.PASS ∧
       (reportFor c rest).allowed_words.state = State.PASS ∧
       (reportFor c rest).no_exception_violation.state = State.PASS ∧
       (reportFor c rest).not_protected.state = State.PASS)) := by
  refine ⟨rfl, ?_⟩
  simp only [reportFor, Bool.and_eq_true, decide_eq_true_eq, and_assoc]

/-- C4: for a name with no leading, trailing or doubled underscore, when the
name minus every canonical filter name and exception token is non-empty, the
snake_case check passes exactly when that remainder is entirely lower-case and
alphanumeric-with-underscore, and fails otherwise. -/
theorem c4_snake_case_remainder (name : Str)
    (h1 : leadsWith (str "_") name = false)
    (h2 : endsWithUnderscore name = false)
    (h3 : occursIn (str "__") name = false)
    (h4 : snakeRemainder name ≠ []) :
    ((check_snake_case name).state = State.PASS ↔
      (pyIsLowerStr (snakeRemainder name) = true ∧
       pyIsAlnumStr ((snakeRemainder name).filter (fun c => !(c == '_'))) = true)) ∧
    ((check_snake_case name).state = State.FAIL ↔
      ¬(pyIsLowerStr (snakeRemainder name) = true ∧
        pyIsAlnumStr ((snakeRemainder name).filter (fun c => !(c == '_'))) = true)) := by
  unfold check_snake_case check_alphanumeric
  by_cases hL : pyIsLowerStr (snakeRemainder name) = true
  · by_cases hA : pyIsAlnumStr ((snakeRemainder name).filter (fun c => !(c == '_'))) = true
    · simp [h1, h2, h3, h4, hL, hA]
    · simp [h1, h2, h3, h4, hL, hA]
  · simp [h1, h2, h3, h4, hL]

/-- C4 witness: `ra-deg` has a clean underscore shape, its remainder is itself
and is lower-case but contains a hyphen, so the snake_case check fails. -/
theorem c4_snake_case_remainder_witness :
    (check_snake_case (str "ra-deg")).state = State.FAIL :=
  (c4_snake_case_remainder (str "ra-deg") (by decide) (by decide) (by decide)
    (by decide)).2.mpr (by decide)

/-- C8: on every non-empty name the first-character check and the full
aggregator return a value (the `name[0]` indexing, the only partial operation
in the source, is guarded by non-emptiness); every other check is a total
function of the name. -/
theorem c8_total_on_nonempty (name : Str) (h : name ≠ []) :
    (check_alphabetical_start name).isSome = true ∧
    (validate_column_name name).isSome = true := by
  cases name with
  | nil => exact absurd rfl h
  | cons c rest => exact ⟨rfl, rfl⟩

/-- C8 witness: the malformed name `abc.def` yields a report rather than an
error. -/
theorem c8_total_on_nonempty_witness :
    (check_alphabetical_start (str "abc.def")).isSome = true ∧
    (validate_column_name (str "abc.def")).isSome = true :=
  c8_total_on_nonempty (str "abc.def") (by decide)
